import Mathlib

/-!
Shallow embedding of kube-state-metrics' collector assembly pipeline
(pkg/collectors/builder.go), the PodDisruptionBudget metric wrapper
(internal/store/poddisruptionbudget.go) and the command-line collector
set (main.go), with theorems about allow/deny filtering, generator
composition, builder construction and label wrapping.
-/

namespace KSM

/-- Metric type enum (spec data model; pkg/metric's Gauge, Counter, Info, StateSet). -/
inductive MetricType where
  | Gauge
  | Counter
  | Info
  | StateSet
deriving DecidableEq

/-- One rendered metric: label keys, label values and a numeric value
(metric.Metric). The float64 values reached by the claims are integer
casts, so the value is carried as an Int. -/
structure Metric where
  LabelKeys : List String
  LabelValues : List String
  Value : Int
deriving DecidableEq

/-- One rendered metric family block for one object (metric.Family). -/
structure Family where
  Metrics : List Metric
deriving DecidableEq

/-- PodDisruptionBudgetStatus: the fields read by poddisruptionbudget.go. -/
structure PodDisruptionBudgetStatus where
  CurrentHealthy : Int
  DesiredHealthy : Int
  DisruptionsAllowed : Int
  ExpectedPods : Int
  ObservedGeneration : Int
deriving DecidableEq

/-- PodDisruptionBudget object: the ObjectMeta fields (Namespace, Name) and
the status fields used by internal/store/poddisruptionbudget.go.
CreationUnix carries CreationTimestamp.Unix(); CreationIsZero its
IsZero() flag. -/
structure PodDisruptionBudget where
  Namespace : String
  Name : String
  CreationUnix : Int
  CreationIsZero : Bool
  Status : PodDisruptionBudgetStatus
deriving DecidableEq

/-- A domain object as handed to a render function (Go's empty-interface
obj argument): either a PodDisruptionBudget, or an object of some other
dynamic type identified by a tag. -/
inductive KObject where
  | pdb (p : PodDisruptionBudget)
  | other (tag : String)
deriving DecidableEq

/-- Metric family generator (metrics.FamilyGenerator): name, help text,
metric type and the render function of the spec data model. Ty stands
for the Type field, a reserved word here. -/
structure FamilyGenerator where
  Name : String
  Help : String
  Ty : MetricType
  GenerateFunc : KObject → Family

/-- The whiteBlackLister interface of builder.go lines 42-45. -/
structure WhiteBlackLister where
  IsIncluded : String → Bool
  IsExcluded : String → Bool

/-- Modelled from the spec: the allow/deny policy implementation
(pkg/whiteblacklist) is not under src/, only the whiteBlackLister
interface is. A policy is an allow (white) list and a deny (black) list. -/
structure WhiteBlackList where
  white : List String
  black : List String
deriving DecidableEq

/-- Modelled from the spec: the whiteBlackLister view of a WhiteBlackList.
A name is excluded iff the deny list holds it; it is included iff the
allow list admits it (an empty allow list admits every name) and the deny
list does not hold it — per the spec, "exclusion wins over inclusion when
both lists are non-empty and a name matches both (explicit deny is
authoritative)". -/
def WhiteBlackList.lister (w : WhiteBlackList) : WhiteBlackLister :=
  { IsIncluded := fun name => decide ((w.white = [] ∨ name ∈ w.white) ∧ name ∉ w.black)
    IsExcluded := fun name => decide (name ∈ w.black) }

/-- filterMetricFamilies (builder.go lines 273-283): keeps exactly the
families whose name the lister reports as included. -/
def filterMetricFamilies (l : WhiteBlackLister) (families : List FamilyGenerator) :
    List FamilyGenerator :=
  families.filter (fun f => l.IsIncluded f.Name)

/-- extractHelpText (builder.go lines 242-249): one header string per
family, the family's name and help text joined by a space. -/
def extractHelpText (families : List FamilyGenerator) : List String :=
  families.map (fun f => f.Name ++ " " ++ f.Help)

/-- composeMetricGenFuncs (builder.go lines 253-269): collects the
generate functions once, then renders an object by applying each one in
list order. -/
def composeMetricGenFuncs (families : List FamilyGenerator) : KObject → List Family :=
  let funcs := families.map (fun f => f.GenerateFunc)
  fun obj => funcs.map (fun f => f obj)

/-- The results of a sequence of calls to the composed render function,
one call per listed object, used to state determinism across calls. -/
def renderCallResults (families : List FamilyGenerator) (objs : List KObject) :
    List (List Family) :=
  objs.map (composeMetricGenFuncs families)

/-- composeMetricGenFuncs under explicit Go panic semantics: each
generate function may panic on an object (Option.none); the composing
loop applies them in order and a panic propagates out of the composed
call, so the whole call yields none. -/
def composeMetricGenFuncsGo (funcs : List (KObject → Option Family)) (obj : KObject) :
    Option (List Family) :=
  match funcs with
  | [] => some []
  | f :: rest =>
    match f obj with
    | none => none
    | some fam => (composeMetricGenFuncsGo rest obj).map (fun fams => fam :: fams)

/-- descPodDisruptionBudgetLabelsDefaultLabels (poddisruptionbudget.go line 38). -/
def descPodDisruptionBudgetLabelsDefaultLabels : List String :=
  ["namespace", "poddisruptionbudget"]

/-- wrapPodDisruptionBudgetFunc (poddisruptionbudget.go lines 176-189):
asserts the object's dynamic type (a failed assertion is a Go panic,
modelled as none), applies the inner render function, then prepends the
default label keys and the object's namespace and name to every metric. -/
def wrapPodDisruptionBudgetFunc (f : PodDisruptionBudget → Family) :
    KObject → Option Family :=
  fun obj =>
    match obj with
    | KObject.pdb podDisruptionBudget =>
        let metricFamily := f podDisruptionBudget
        some { Metrics := metricFamily.Metrics.map (fun m =>
          { m with
            LabelKeys := descPodDisruptionBudgetLabelsDefaultLabels ++ m.LabelKeys
            LabelValues :=
              [podDisruptionBudget.Namespace, podDisruptionBudget.Name] ++ m.LabelValues }) }
    | KObject.other _ => none

/-- The kube_poddisruptionbudget_status_current_healthy inner render
function (poddisruptionbudget.go lines 67-75). -/
def statusCurrentHealthyFunc (p : PodDisruptionBudget) : Family :=
  { Metrics := [{ LabelKeys := [], LabelValues := [], Value := p.Status.CurrentHealthy }] }

/-- The kube_poddisruptionbudget_created inner render function
(poddisruptionbudget.go lines 48-60): one unlabelled metric unless the
creation timestamp is zero. -/
def createdFunc (p : PodDisruptionBudget) : Family :=
  { Metrics :=
      if p.CreationIsZero then []
      else [{ LabelKeys := [], LabelValues := [], Value := p.CreationUnix }] }

/-- A collector as returned by the builder: the header list and the
composed render function handed to the metrics store at construction
(builder.go lines 197-240; the store type itself lives outside src/). -/
structure Collector where
  headers : List String
  renderFunc : KObject → List Family

/-- The Builder of builder.go lines 49-57: the fields Build reads. The
whiteBlackList interface value may be nil, hence the Option. -/
structure Builder where
  enabledCollectors : List String
  namespaces : List String
  whiteBlackList : Option WhiteBlackLister

/-- NewBuilder (builder.go lines 60-68): no collectors enabled and no
policy configured yet. -/
def NewBuilder : Builder :=
  { enabledCollectors := [], namespaces := [], whiteBlackList := none }

/-- The copy loop of WithEnabledCollectors (builder.go lines 72-75):
appends the caller's entries one by one to a fresh empty slice. -/
def copyStrings (c : List String) : List String :=
  c.foldl (fun copied s => copied ++ [s]) []

/-- sort.Strings (builder.go line 77): sorts the copied slice
lexicographically. -/
def sortStrings (c : List String) : List String :=
  c.insertionSort (· ≤ ·)

/-- WithEnabledCollectors (builder.go lines 71-80): stores the sorted
copy of the caller's slice. -/
def WithEnabledCollectors (b : Builder) (c : List String) : Builder :=
  { b with enabledCollectors := sortStrings (copyStrings c) }

/-- WithWhiteBlackList (builder.go lines 94-96). -/
def WithWhiteBlackList (b : Builder) (l : WhiteBlackLister) : Builder :=
  { b with whiteBlackList := some l }

/-- Modelled from the spec: the daemonset generator table referenced by
builder.go line 198 is defined outside src/; the spec treats these
per-kind tables as data, not architecture. One representative family. -/
def daemonSetMetricFamilies : List FamilyGenerator :=
  [{ Name := "kube_daemonset_created"
     Help := "Unix creation timestamp"
     Ty := MetricType.Gauge
     GenerateFunc := fun _ => { Metrics := [] } }]

/-- Modelled from the spec: the pod generator table referenced by
builder.go line 228, defined outside src/. One representative family. -/
def podMetricFamilies : List FamilyGenerator :=
  [{ Name := "kube_pod_info"
     Help := "Information about pod."
     Ty := MetricType.Gauge
     GenerateFunc := fun _ => { Metrics := [] } }]

/-- Modelled from the spec: the service generator table referenced by
builder.go line 213, defined outside src/. One representative family. -/
def serviceMetricFamilies : List FamilyGenerator :=
  [{ Name := "kube_service_info"
     Help := "Information about service."
     Ty := MetricType.Gauge
     GenerateFunc := fun _ => { Metrics := [] } }]

/-- buildDaemonSetCollector (builder.go lines 197-210): filters the family
table through the policy, composes the render function, extracts the
headers and hands both to the new metrics store. The policy argument is
the builder's non-nil whiteBlackList, unwrapped by Build; reflector
spawning is a side effect with no bearing on the returned collector. -/
def buildDaemonSetCollector (b : Builder) (l : WhiteBlackLister) : Collector :=
  let filteredMetricFamilies := filterMetricFamilies l daemonSetMetricFamilies
  { headers := extractHelpText filteredMetricFamilies
    renderFunc := composeMetricGenFuncs filteredMetricFamilies }

/-- buildPodCollector (builder.go lines 227-240). -/
def buildPodCollector (b : Builder) (l : WhiteBlackLister) : Collector :=
  let filteredMetricFamilies := filterMetricFamilies l podMetricFamilies
  { headers := extractHelpText filteredMetricFamilies
    renderFunc := composeMetricGenFuncs filteredMetricFamilies }

/-- buildServiceCollector (builder.go lines 212-225). -/
def buildServiceCollector (b : Builder) (l : WhiteBlackLister) : Collector :=
  let filteredMetricFamilies := filterMetricFamilies l serviceMetricFamilies
  { headers := extractHelpText filteredMetricFamilies
    renderFunc := composeMetricGenFuncs filteredMetricFamilies }

/-- availableCollectors (builder.go lines 122-144): the registry of
collector constructors; only daemonsets, pods and services are wired in. -/
def availableCollectors (c : String) :
    Option (Builder → WhiteBlackLister → Collector) :=
  if c = "daemonsets" then some buildDaemonSetCollector
  else if c = "pods" then some buildPodCollector
  else if c = "services" then some buildServiceCollector
  else none

/-- Build (builder.go lines 99-120): Go panics when whiteBlackList is nil
(modelled as none); otherwise walks the enabled collector names in order,
skipping names with no registered constructor, and returns the collectors
of the remaining names. -/
def Build (b : Builder) : Option (List Collector) :=
  match b.whiteBlackList with
  | none => none
  | some l =>
      some (b.enabledCollectors.filterMap
        (fun c => (availableCollectors c).map (fun ctor => ctor b l)))

/-- The outcome of collectorSet.Set (main.go lines 91-102): either the
process aborts (glog.Fatalf) or the updated collector set is returned. -/
inductive SetOutcome where
  | fatal (msg : String)
  | ok (s : List String)
deriving DecidableEq

/-- The availableCollectors map of main.go lines 66-81 (its key set). -/
def mainAvailableCollectors : List String :=
  ["cronjobs", "daemonsets", "deployments", "jobs", "limitranges", "nodes",
   "pods", "replicasets", "replicationcontrollers", "resourcequotas",
   "services", "statefulsets", "persistentvolumeclaims", "namespaces"]

/-- The loop body of collectorSet.Set (main.go lines 94-100): each
requested name must exist in the available map, otherwise glog.Fatalf
aborts the process; known names are inserted into the set. -/
def collectorSetSetLoop (s : List String) : List String → SetOutcome
  | [] => SetOutcome.ok s
  | col :: rest =>
      if mainAvailableCollectors.contains col then
        collectorSetSetLoop (if s.contains col then s else s ++ [col]) rest
      else
        SetOutcome.fatal ("Collector \"" ++ col ++ "\" does not exist")

/-- Comma splitting on the character list, the behaviour of Go's
strings.Split(value, ",") used by collectorSet.Set. -/
def splitCommaChars : List Char → List (List Char)
  | [] => [[]]
  | ch :: rest =>
      let acc := splitCommaChars rest
      if ch = ',' then [] :: acc
      else
        match acc with
        | [] => [[ch]]
        | cur :: tail => (ch :: cur) :: tail

/-- strings.Split(value, ",") (main.go line 93). -/
def splitComma (value : String) : List String :=
  (splitCommaChars value.toList).map (fun cs => String.mk cs)

/-- collectorSet.Set (main.go lines 91-102): splits the flag value on
commas and processes each requested collector name. -/
def collectorSetSet (s : List String) (value : String) : SetOutcome :=
  collectorSetSetLoop s (splitComma value)

/-- A generator name present on both the allow and the deny list in the
demonstration policy below. -/
def demoDeniedGen : FamilyGenerator :=
  { Name := "kube_daemonset_created"
    Help := "Unix creation timestamp"
    Ty := MetricType.Gauge
    GenerateFunc := fun _ => { Metrics := [] } }

/-- A policy whose allow and deny lists both match demoDeniedGen's name. -/
def demoBothLists : WhiteBlackList :=
  { white := ["kube_daemonset_created"], black := ["kube_daemonset_created"] }

/-- Three demonstration generators with distinguishable outputs. -/
def demoGens : List FamilyGenerator :=
  [{ Name := "kube_pod_info", Help := "Information about pod.",
     Ty := MetricType.Gauge,
     GenerateFunc := fun _ =>
       { Metrics := [{ LabelKeys := [], LabelValues := [], Value := 1 }] } },
   { Name := "kube_pod_created", Help := "Unix creation timestamp",
     Ty := MetricType.Gauge,
     GenerateFunc := fun _ =>
       { Metrics := [{ LabelKeys := [], LabelValues := [], Value := 2 }] } },
   { Name := "kube_pod_labels", Help := "Kubernetes labels converted to Prometheus labels.",
     Ty := MetricType.Gauge,
     GenerateFunc := fun _ =>
       { Metrics := [{ LabelKeys := [], LabelValues := [], Value := 3 }] } }]

/-- A concrete PodDisruptionBudget object. -/
def demoPdb : PodDisruptionBudget :=
  { Namespace := "default"
    Name := "pdb1"
    CreationUnix := 1500000000
    CreationIsZero := false
    Status := { CurrentHealthy := 3, DesiredHealthy := 2, DisruptionsAllowed := 1,
                ExpectedPods := 4, ObservedGeneration := 1 } }

/-- A non-PodDisruptionBudget object. -/
def demoObj : KObject := KObject.other "pod"

/-- A second demonstration object. -/
def demoObjPdb : KObject := KObject.pdb demoPdb

/-- Two generators differing only in metric type. -/
def demoGaugeGen : FamilyGenerator :=
  { Name := "kube_daemonset_status_number_ready"
    Help := "The number of nodes that should be running the daemon pod and have one or more of the daemon pod running and ready."
    Ty := MetricType.Gauge
    GenerateFunc := fun _ => { Metrics := [] } }

/-- demoGaugeGen with a Counter type instead of Gauge. -/
def demoCounterGen : FamilyGenerator :=
  { Name := "kube_daemonset_status_number_ready"
    Help := "The number of nodes that should be running the daemon pod and have one or more of the daemon pod running and ready."
    Ty := MetricType.Counter
    GenerateFunc := fun _ => { Metrics := [] } }

/-- A composed function list for the failure-policy claim: a generator
that succeeds on every object followed by the wrapped current-healthy
generator, whose type assertion panics on a non-PodDisruptionBudget
object. -/
def cexFuncs : List (KObject → Option Family) :=
  [fun _ => some { Metrics := [] },
   wrapPodDisruptionBudgetFunc statusCurrentHealthyFunc]

/-- The filterMap over an optional registry hit counts exactly the names
whose registry lookup succeeds. -/
theorem length_filterMap_map_eq_countP {α β γ : Type} (l : List α)
    (g : α → Option β) (k : β → γ) :
    (l.filterMap (fun a => (g a).map k)).length =
      l.countP (fun a => (g a).isSome) := by
  induction l with
  | nil => rfl
  | cons a as ih =>
      cases h : g a <;>
        simp [List.filterMap_cons, List.countP_cons, h, ih]

/-- The registered constructors ignore every builder field, so the
constructed collector does not depend on the builder value. -/
theorem availableCollectors_ctor_const (b1 b2 : Builder) (l : WhiteBlackLister)
    (n : String) :
    (availableCollectors n).map (fun ctor => ctor b1 l) =
      (availableCollectors n).map (fun ctor => ctor b2 l) := by
  unfold availableCollectors
  split_ifs <;> rfl

/-- The collector list Build assembles does not depend on which builder
value the constructors receive. -/
theorem filterMap_ctor_const (b1 b2 : Builder) (l : WhiteBlackLister)
    (names : List String) :
    names.filterMap (fun n => (availableCollectors n).map (fun ctor => ctor b1 l)) =
      names.filterMap (fun n => (availableCollectors n).map (fun ctor => ctor b2 l)) := by
  induction names with
  | nil => rfl
  | cons n rest ih =>
      rw [List.filterMap_cons, List.filterMap_cons,
        availableCollectors_ctor_const b1 b2 l n, ih]

/-- Lifting total generate functions into the panic-aware composition
recovers the total composition: when no generator panics, the Go loop
returns every family block. -/
theorem composeMetricGenFuncsGo_total (families : List FamilyGenerator)
    (obj : KObject) :
    composeMetricGenFuncsGo
        (families.map (fun f => fun o => some (f.GenerateFunc o))) obj =
      some (composeMetricGenFuncs families obj) := by
  induction families with
  | nil => rfl
  | cons g rest ih =>
      simp [composeMetricGenFuncsGo, composeMetricGenFuncs] at ih ⊢
      simp [ih]

/-- Claim C1: a family whose name is on the deny list is absent from the
filtered list passed to composition, even when the allow list also
matches that name; exclusion takes precedence over inclusion. -/
theorem filterMetricFamilies_denied_absent (w : WhiteBlackList)
    (families : List FamilyGenerator) (g : FamilyGenerator)
    (hwhite : g.Name ∈ w.white) (hblack : g.Name ∈ w.black) :
    g ∉ filterMetricFamilies w.lister families := by
  intro hmem
  rw [filterMetricFamilies, List.mem_filter] at hmem
  have hinc := hmem.2
  simp only [WhiteBlackList.lister, decide_eq_true_eq] at hinc
  exact hinc.2 hblack

/-- Witness for C1: a concrete policy whose allow and deny lists both
match the family name; the family is filtered out. -/
theorem filterMetricFamilies_denied_absent_witness :
    demoDeniedGen.Name ∈ demoBothLists.white ∧
    demoDeniedGen.Name ∈ demoBothLists.black ∧
    demoDeniedGen ∉ filterMetricFamilies demoBothLists.lister [demoDeniedGen] :=
  ⟨by simp [demoDeniedGen, demoBothLists],
   by simp [demoDeniedGen, demoBothLists],
   filterMetricFamilies_denied_absent demoBothLists [demoDeniedGen] demoDeniedGen
     (by simp [demoDeniedGen, demoBothLists]) (by simp [demoDeniedGen, demoBothLists])⟩

/-- Claim C4: Build fails (the Go panic, modelled as none) exactly when no
allow/deny policy has been supplied; with a non-nil policy it returns a
collector list for every combination of enabled kinds and namespaces. -/
theorem build_fails_iff_no_whiteBlackList (b : Builder) :
    Build b = none ↔ b.whiteBlackList = none := by
  cases h : b.whiteBlackList <;> simp [Build, h]

/-- Claim C5: for a list of n generators, the composed render function
returns exactly n family blocks on every object, and the i-th block is
the one rendered by the i-th generator of the input list. -/
theorem composeMetricGenFuncs_length_and_order (families : List FamilyGenerator)
    (obj : KObject) (i : Nat) (h : i < families.length) :
    (composeMetricGenFuncs families obj).length = families.length ∧
    (composeMetricGenFuncs families obj)[i]? =
      some ((families.get ⟨i, h⟩).GenerateFunc obj) := by
  constructor
  · simp [composeMetricGenFuncs]
  · simp [composeMetricGenFuncs, List.getElem?_map, List.getElem?_eq_getElem h]

/-- Witness for C5: the spec's size-3 scenario; the composed function
yields 3 blocks and the last block comes from the last generator. -/
theorem composeMetricGenFuncs_length_and_order_witness :
    2 < demoGens.length ∧
    ((composeMetricGenFuncs demoGens demoObj).length = demoGens.length ∧
     (composeMetricGenFuncs demoGens demoObj)[2]? =
       some ((demoGens.get ⟨2, by decide⟩).GenerateFunc demoObj)) :=
  ⟨by decide, composeMetricGenFuncs_length_and_order demoGens demoObj 2 (by decide)⟩

/-- Claim C7: the composed render function is deterministic across a
sequence of calls: calls on equal objects, however interleaved with calls
on other objects, return equal block lists. -/
theorem renderCallResults_deterministic (families : List FamilyGenerator)
    (objs : List KObject) (i j : Nat) (h : objs[i]? = objs[j]?) :
    (renderCallResults families objs)[i]? =
      (renderCallResults families objs)[j]? := by
  simp [renderCallResults, List.getElem?_map, h]

/-- Witness for C7: the first and the third call of an interleaved call
sequence target the same object and return the same block list. -/
theorem renderCallResults_deterministic_witness :
    [demoObj, demoObjPdb, demoObj][0]? = [demoObj, demoObjPdb, demoObj][2]? ∧
    (renderCallResults demoGens [demoObj, demoObjPdb, demoObj])[0]? =
      (renderCallResults demoGens [demoObj, demoObjPdb, demoObj])[2]? :=
  ⟨by decide,
   renderCallResults_deterministic demoGens [demoObj, demoObjPdb, demoObj] 0 2 (by decide)⟩

/-- Counterexample to claim C3: requesting the unknown collector name
"foo" through the command-line collector set (main.go collectorSet.Set)
aborts the process via glog.Fatalf, so an unknown kind name is not always
non-fatal. -/
theorem collectorSetSet_unknown_fatal_cex :
    collectorSetSet [] "foo" =
      SetOutcome.fatal "Collector \"foo\" does not exist" := by
  decide

/-- Claim C3 as amended: Build() itself never aborts on an unknown name —
appending a name with no registered constructor leaves its result
unchanged, and it returns exactly one collector per enabled name that has
a constructor; but the command-line collector set is a separate, fatal
path. -/
theorem build_skips_unknown_collectors (b : Builder) (l : WhiteBlackLister)
    (c : String) (h : availableCollectors c = none) :
    Build (WithWhiteBlackList
        { b with enabledCollectors := b.enabledCollectors ++ [c] } l) =
      Build (WithWhiteBlackList b l) ∧
    ∃ cols, Build (WithWhiteBlackList b l) = some cols ∧
      cols.length = b.enabledCollectors.countP
        (fun n => (availableCollectors n).isSome) := by
  refine ⟨?_, ?_⟩
  · simp only [Build, WithWhiteBlackList, List.filterMap_append]
    rw [List.filterMap_cons_none (by simp [h]), List.filterMap_nil,
      List.append_nil]
    exact congrArg some (filterMap_ctor_const _ _ l b.enabledCollectors)
  · exact ⟨_, rfl, length_filterMap_map_eq_countP b.enabledCollectors
      availableCollectors (fun ctor => ctor (WithWhiteBlackList b l) l)⟩

/-- Witness for C3's amended statement at the unknown name "foo" and an
enabled list holding one known and one unknown name. -/
theorem build_skips_unknown_collectors_witness :
    availableCollectors "foo" = none ∧
    (Build (WithWhiteBlackList
        { NewBuilder with
            enabledCollectors := ["daemonsets", "xyz"] ++ ["foo"] } demoBothLists.lister) =
      Build (WithWhiteBlackList
        { NewBuilder with enabledCollectors := ["daemonsets", "xyz"] } demoBothLists.lister) ∧
     ∃ cols, Build (WithWhiteBlackList
        { NewBuilder with enabledCollectors := ["daemonsets", "xyz"] } demoBothLists.lister) =
          some cols ∧
       cols.length = ["daemonsets", "xyz"].countP
         (fun n => (availableCollectors n).isSome)) :=
  ⟨rfl, build_skips_unknown_collectors
    { NewBuilder with enabledCollectors := ["daemonsets", "xyz"] }
    demoBothLists.lister "foo" rfl⟩

/-- Counterexample to claim C6: the header entry handed to the store is
the family's name and help text only; two generators that differ only in
their metric type produce identical header entries, so the entry cannot
carry the type. -/
theorem extractHelpText_drops_type_cex :
    demoGaugeGen.Ty ≠ demoCounterGen.Ty ∧
    extractHelpText [demoGaugeGen] = extractHelpText [demoCounterGen] := by
  constructor
  · simp [demoGaugeGen, demoCounterGen]
  · rfl

/-- Claim C6 as amended: the header list has exactly one entry per
family of the filtered list, in the same order, each entry carrying that
family's name and help text (but not its type), computed solely from the
generator list; buildDaemonSetCollector hands exactly this list to the
store. -/
theorem extractHelpText_name_help_per_family (families : List FamilyGenerator)
    (b : Builder) (l : WhiteBlackLister) (i : Nat) (h : i < families.length) :
    (extractHelpText families).length = families.length ∧
    (extractHelpText families)[i]? =
      some ((families.get ⟨i, h⟩).Name ++ " " ++ (families.get ⟨i, h⟩).Help) ∧
    (buildDaemonSetCollector b l).headers =
      extractHelpText (filterMetricFamilies l daemonSetMetricFamilies) := by
  refine ⟨by simp [extractHelpText], ?_, rfl⟩
  simp [extractHelpText, List.getElem?_map, List.getElem?_eq_getElem h]

/-- Witness for C6's amended statement on a singleton generator list. -/
theorem extractHelpText_name_help_per_family_witness :
    0 < [demoGaugeGen].length ∧
    ((extractHelpText [demoGaugeGen]).length = [demoGaugeGen].length ∧
     (extractHelpText [demoGaugeGen])[0]? =
       some (([demoGaugeGen].get ⟨0, by decide⟩).Name ++ " " ++
         ([demoGaugeGen].get ⟨0, by decide⟩).Help) ∧
     (buildDaemonSetCollector NewBuilder demoBothLists.lister).headers =
       extractHelpText
         (filterMetricFamilies demoBothLists.lister daemonSetMetricFamilies)) :=
  ⟨by decide, extractHelpText_name_help_per_family [demoGaugeGen]
    NewBuilder demoBothLists.lister 0 (by decide)⟩

/-- Counterexample to claim C2: a generator list of two families, one of
which fails on the given object (the wrapped generator's type assertion
panics on a non-PodDisruptionBudget object). The claim predicts two
rendered blocks with the failing family degraded to zero metric lines;
the code instead lets the panic propagate, so the composed call produces
no block list at all — the non-failing family's block is lost too. -/
theorem composeMetricGenFuncsGo_no_isolation_cex :
    cexFuncs.length = 2 ∧
    composeMetricGenFuncsGo cexFuncs (KObject.other "pod") = none :=
  ⟨rfl, rfl⟩

/-- Claim C2 as amended: a render failure is not isolated — whenever any
generator in the list fails on an object, the whole composed render call
fails (the Go panic propagates to the caller), yielding no blocks for any
family. -/
theorem composeMetricGenFuncsGo_failure_propagates
    (funcs : List (KObject → Option Family)) (obj : KObject)
    (f : KObject → Option Family) (hmem : f ∈ funcs) (hfail : f obj = none) :
    composeMetricGenFuncsGo funcs obj = none := by
  induction funcs with
  | nil => cases hmem
  | cons g rest ih =>
      rcases List.mem_cons.mp hmem with rfl | hmem
      · simp [composeMetricGenFuncsGo, hfail]
      · cases hg : g obj <;> simp [composeMetricGenFuncsGo, hg, ih hmem]

/-- Witness for C2's amended statement: the wrapped generator is in the
list, fails on the object, and the composed call yields none. -/
theorem composeMetricGenFuncsGo_failure_propagates_witness :
    (wrapPodDisruptionBudgetFunc statusCurrentHealthyFunc ∈ cexFuncs ∧
     wrapPodDisruptionBudgetFunc statusCurrentHealthyFunc (KObject.other "pod") = none) ∧
    composeMetricGenFuncsGo cexFuncs (KObject.other "pod") = none :=
  ⟨⟨by simp [cexFuncs], rfl⟩,
   composeMetricGenFuncsGo_failure_propagates cexFuncs (KObject.other "pod")
     (wrapPodDisruptionBudgetFunc statusCurrentHealthyFunc) (by simp [cexFuncs]) rfl⟩

/-- Folding append-of-singleton over a list appends the list to the
accumulator: the copy loop of WithEnabledCollectors reproduces its input. -/
theorem foldl_append_singleton (c : List String) :
    ∀ acc : List String, c.foldl (fun copied s => copied ++ [s]) acc = acc ++ c := by
  induction c with
  | nil => intro acc; simp
  | cons s rest ih => intro acc; simp [List.foldl_cons, ih]

/-- The copy loop of WithEnabledCollectors yields a list equal to the
caller's list. -/
theorem copyStrings_id (c : List String) : copyStrings c = c := by
  simpa [copyStrings] using foldl_append_singleton c []

/-- Claim C9: for every PodDisruptionBudget and every inner render
function whose metrics carry equal-length label key and value lists,
every wrapped metric also carries equal-length lists; its keys begin with
"namespace", "poddisruptionbudget" followed by the inner keys, and its
values begin with the object's namespace and name followed by the inner
values. -/
theorem wrapPodDisruptionBudgetFunc_labels (f : PodDisruptionBudget → Family)
    (p : PodDisruptionBudget)
    (h : ∀ m ∈ (f p).Metrics, m.LabelKeys.length = m.LabelValues.length) :
    ∃ fam, wrapPodDisruptionBudgetFunc f (KObject.pdb p) = some fam ∧
      fam.Metrics.length = (f p).Metrics.length ∧
      ∀ mw ∈ fam.Metrics,
        mw.LabelKeys.length = mw.LabelValues.length ∧
        ∃ m ∈ (f p).Metrics,
          mw.LabelKeys = "namespace" :: "poddisruptionbudget" :: m.LabelKeys ∧
          mw.LabelValues = p.Namespace :: p.Name :: m.LabelValues ∧
          mw.Value = m.Value := by
  refine ⟨{ Metrics := (f p).Metrics.map (fun m =>
      { m with
        LabelKeys := descPodDisruptionBudgetLabelsDefaultLabels ++ m.LabelKeys
        LabelValues := [p.Namespace, p.Name] ++ m.LabelValues }) }, rfl, by simp, ?_⟩
  intro mw hmw
  simp only [List.mem_map] at hmw
  obtain ⟨m, hm, rfl⟩ := hmw
  refine ⟨?_, m, hm, rfl, rfl, rfl⟩
  simp [descPodDisruptionBudgetLabelsDefaultLabels, h m hm]

/-- Witness for C9: the created-timestamp generator applied to a concrete
PodDisruptionBudget. -/
theorem wrapPodDisruptionBudgetFunc_labels_witness :
    (∀ m ∈ (createdFunc demoPdb).Metrics,
        m.LabelKeys.length = m.LabelValues.length) ∧
    (∃ fam, wrapPodDisruptionBudgetFunc createdFunc (KObject.pdb demoPdb) = some fam ∧
      fam.Metrics.length = (createdFunc demoPdb).Metrics.length ∧
      ∀ mw ∈ fam.Metrics,
        mw.LabelKeys.length = mw.LabelValues.length ∧
        ∃ m ∈ (createdFunc demoPdb).Metrics,
          mw.LabelKeys = "namespace" :: "poddisruptionbudget" :: m.LabelKeys ∧
          mw.LabelValues = demoPdb.Namespace :: demoPdb.Name :: m.LabelValues ∧
          mw.Value = m.Value) :=
  ⟨by decide, wrapPodDisruptionBudgetFunc_labels createdFunc demoPdb (by decide)⟩

/-- Claim C10: WithEnabledCollectors stores a lexicographically sorted
permutation of the caller's slice, the copy loop reproduces the input
(the builder's list is its own fresh value), and Build walks exactly
that sorted list when constructing collectors. -/
theorem withEnabledCollectors_sorted_fresh (b : Builder) (c : List String)
    (l : WhiteBlackLister) :
    List.Perm (WithEnabledCollectors b c).enabledCollectors c ∧
    List.Sorted (fun a d => a ≤ d) (WithEnabledCollectors b c).enabledCollectors ∧
    copyStrings c = c ∧
    Build (WithWhiteBlackList (WithEnabledCollectors b c) l) =
      some ((sortStrings c).filterMap (fun n => (availableCollectors n).map
        (fun ctor => ctor (WithWhiteBlackList (WithEnabledCollectors b c) l) l))) := by
  refine ⟨?_, ?_, copyStrings_id c, ?_⟩
  · simp only [WithEnabledCollectors, sortStrings, copyStrings_id]
    exact List.perm_insertionSort _ c
  · simp only [WithEnabledCollectors, sortStrings]
    exact List.sorted_insertionSort _ _
  · simp only [Build, WithWhiteBlackList, WithEnabledCollectors, sortStrings,
      copyStrings_id]

end KSM
